import Mathlib

/-
  Verification development for the Sole_Logging repository
  (src/solelog/Logging.py, class SoleLog).

  The Python source is shallowly embedded below.  Pure helpers become Lean
  functions; the stateful logger becomes explicit state passing on the
  LoggerState structure; fallible Python code (raised exceptions such as
  ValueError, AttributeError, KeyError) is modelled with Except String.
  The filesystem is modelled as an association list from file names to file
  contents; os.path.abspath is modelled as the identity (paths in the model
  are taken to be absolute already) and os.path.join as posix-style
  concatenation with a slash, which is faithful for the relative second
  components the source always passes.  Timestamps and uuids are opaque
  inputs supplied by the environment, so they are passed as explicit string
  parameters.  Error message texts are abbreviated; only the kind of error
  matters for the theorems below.
-/

set_option autoImplicit false

/-! ## Python string built-ins used by the source -/

/-- Model of the Python str.upper method for the ASCII strings used here. -/
def pyUpper (s : String) : String := String.mk (s.data.map Char.toUpper)

/-- Model of the Python str.lower method for the ASCII strings used here. -/
def pyLower (s : String) : String := String.mk (s.data.map Char.toLower)

/-- Whitespace characters removed by the Python str.strip method. -/
def isPySpace (c : Char) : Bool :=
  c = ' ' || c = '\t' || c = '\n' || c = '\x0d' || c = '\x0b' || c = '\x0c'

/-- Model of the Python str.strip method. -/
def pyStrip (s : String) : String :=
  String.mk (((s.data.dropWhile isPySpace).reverse.dropWhile isPySpace).reverse)

/-- Model of a Python f-string left-justified pad, as in a format spec of
the shape colon, less-than, width: pad on the right with spaces up to the
width, never truncating. -/
def padRight (s : String) (w : Nat) : String :=
  s ++ String.mk (List.replicate (w - s.length) ' ')

/-! ## Association lists: Python dicts and the modelled filesystem

Python dicts preserve insertion order; assignment to an existing key keeps
its position, assignment to a fresh key appends at the end. -/

/-- Dict lookup: first value bound to the key, none when the key is absent. -/
def listLookup {α : Type} : List (String × α) → String → Option α
  | [], _ => none
  | (k, v) :: rest, x => if k = x then some v else listLookup rest x

/-- Dict assignment: replace in place when the key exists, append otherwise. -/
def mapUpdate {α : Type} : List (String × α) → String → α → List (String × α)
  | [], k, v => [(k, v)]
  | (k0, v0) :: rest, k, v =>
    if k0 = k then (k, v) :: rest else (k0, v0) :: mapUpdate rest k v

/-- Model of os.remove on the association-list filesystem. -/
def fileRemove : List (String × String) → String → List (String × String)
  | [], _ => []
  | (k0, v0) :: rest, k => if k0 = k then rest else (k0, v0) :: fileRemove rest k

/-! ## Priority filter: SoleLog.__LOGGINGLEVELS and SoleLog.__getPriority -/

/-- The class attribute SoleLog.__LOGGINGLEVELS (Logging.py line 125). -/
def LOGGINGLEVELS : List String := ["DEBUG", "INFO", "WARNING", "ERROR", "CRITICAL"]

/-- Model of the Python list.index method: position of the first occurrence,
none when absent (Python raises ValueError in that case). -/
def listIndex : List String → String → Option Nat
  | [], _ => none
  | y :: ys, x => if y = x then some 0 else (listIndex ys x).map (fun n => n + 1)

/-- SoleLog.__getPriority (Logging.py lines 255 to 271).  The membership
check upper-cases its argument, but the subsequent list.index lookup is on
the original, un-normalized string, so it can itself raise a ValueError. -/
def getPriority (level : String) : Except String Nat :=
  if (pyUpper level) ∈ LOGGINGLEVELS then
    match listIndex LOGGINGLEVELS level with
    | some i => Except.ok i
    | none => Except.error ("ValueError: " ++ level ++ " is not in list")
  else
    Except.error ("Invalid log level: " ++ level ++ ". Must be one of the five canonical names")

/-! ## JSON values and the fragment of the json module the source uses -/

/-- JSON values; records only ever hold string leaves here, but the type is
kept general. -/
inductive Json where
  | null : Json
  | bool : Bool → Json
  | num : Int → Json
  | str : String → Json
  | arr : List Json → Json
  | obj : List (String × Json) → Json
deriving Repr

/-- String escaping as done by json.dumps, restricted to the printable
ASCII fragment exercised in this development. -/
def escChar (c : Char) : String :=
  if c = '\x22' then "\\\x22"
  else if c = '\\' then "\\\\"
  else if c = '\n' then "\\n"
  else if c = '\x0d' then "\\r"
  else if c = '\t' then "\\t"
  else String.singleton c

/-- A JSON string literal with surrounding double quotes. -/
def escString (s : String) : String :=
  "\x22" ++ String.join (s.data.map escChar) ++ "\x22"

mutual

/-- Model of json.dumps with default separators (comma-space and
colon-space), used for the one-object-per-line save mode. -/
def dumps : Json → String
  | Json.null => "null"
  | Json.bool b => cond b ("true") ("false")
  | Json.num n => toString n
  | Json.str s => escString s
  | Json.arr xs => "[" ++ dumpsArr xs ++ "]"
  | Json.obj kvs => "\x7b" ++ dumpsObjItems kvs ++ "\x7d"

/-- Comma-separated rendering of array elements for dumps. -/
def dumpsArr : List Json → String
  | [] => ""
  | [x] => dumps x
  | x :: y :: rest => dumps x ++ ", " ++ dumpsArr (y :: rest)

/-- Comma-separated rendering of object members for dumps. -/
def dumpsObjItems : List (String × Json) → String
  | [] => ""
  | [(k, v)] => escString k ++ ": " ++ dumps v
  | (k, v) :: y :: rest => escString k ++ ": " ++ dumps v ++ ", " ++ dumpsObjItems (y :: rest)

end

/-- Newline followed by the given number of spaces of indentation. -/
def jsonNl (ind : Nat) : String := "\n" ++ String.mk (List.replicate ind ' ')

mutual

/-- Model of json.dump with indent 2, as used by the aggregate-JSON save
mode (Logging.py line 338): containers break onto indented lines, empty
containers render inline, the item separator is a bare comma before the
line break and the key separator is colon-space. -/
def dumpInd : Nat → Json → String
  | _, Json.null => "null"
  | _, Json.bool b => cond b ("true") ("false")
  | _, Json.num n => toString n
  | _, Json.str s => escString s
  | _, Json.arr [] => "[]"
  | ind, Json.arr (x :: xs) =>
    "[" ++ jsonNl (ind + 2) ++ dumpIndArr (ind + 2) (x :: xs) ++ jsonNl ind ++ "]"
  | _, Json.obj [] => "\x7b\x7d"
  | ind, Json.obj (kv :: kvs) =>
    "\x7b" ++ jsonNl (ind + 2) ++ dumpIndObj (ind + 2) (kv :: kvs) ++ jsonNl ind ++ "\x7d"

/-- Indented rendering of array elements for dumpInd. -/
def dumpIndArr : Nat → List Json → String
  | _, [] => ""
  | ind, [x] => dumpInd ind x
  | ind, x :: y :: rest => dumpInd ind x ++ "," ++ jsonNl ind ++ dumpIndArr ind (y :: rest)

/-- Indented rendering of object members for dumpInd. -/
def dumpIndObj : Nat → List (String × Json) → String
  | _, [] => ""
  | ind, [(k, v)] => escString k ++ ": " ++ dumpInd ind v
  | ind, (k, v) :: y :: rest =>
    escString k ++ ": " ++ dumpInd ind v ++ "," ++ jsonNl ind ++ dumpIndObj ind (y :: rest)

end

/-- The keys of a JSON object, in order; other values have no keys. -/
def jsonKeys : Json → List String
  | Json.obj kvs => kvs.map Prod.fst
  | _ => []

/-- Whether a JSON value is a string leaf. -/
def jsonIsStr : Json → Bool
  | Json.str _ => true
  | _ => false

/-- Whether a JSON value is a number leaf. -/
def jsonIsNum : Json → Bool
  | Json.num _ => true
  | _ => false

/-- Field lookup inside a JSON object. -/
def jsonField : Json → String → Option Json
  | Json.obj kvs, k => listLookup kvs k
  | _, _ => none

/-! ## Log records: the currentLog dict built in SoleLog.__log -/

/-- Caller metadata recovered via inspect.getframeinfo in the source. -/
structure FrameInfo where
  filename : String
  function : String
  lineno : Nat
deriving Repr, DecidableEq

/-- The currentLog dict of SoleLog.__log (Logging.py lines 224 to 231).
Every value is produced by an f-string, hence is a string; the raw message
is modelled as a string as well. -/
structure LogRecord where
  Timestamp : String
  Level : String
  Path : String
  Module : String
  Line : String
  Message : String
deriving Repr, DecidableEq

/-- Construction of the currentLog dict from the effective timestamp, the
severity name, the caller frame and the message, transcribing the format
specs of Logging.py lines 224 to 231. -/
def currentLogOf (currentTime logType : String) (info : FrameInfo) (message : String) :
    LogRecord :=
  { Timestamp := currentTime
    Level := padRight logType 8
    Path := padRight info.filename 65
    Module := padRight info.function 10
    Line := padRight (toString info.lineno) 5
    Message := message }

/-- The JSON object json.dumps receives for a record, with the keys in the
insertion order of the currentLog dict. -/
def recToJson (r : LogRecord) : Json :=
  Json.obj [("Timestamp", Json.str r.Timestamp), ("Level", Json.str r.Level),
            ("Path", Json.str r.Path), ("Module", Json.str r.Module),
            ("Line", Json.str r.Line), ("Message", Json.str r.Message)]

/-- The sessionLogs dict as the JSON document json.dump serializes in
aggregate mode: each session id maps to the array of its records. -/
def sessionLogsJson (m : List (String × List LogRecord)) : Json :=
  Json.obj (m.map (fun kv => (kv.1, Json.arr (kv.2.map recToJson))))

/-! ## Python floats

The two float-valued constructor arguments only ever hold exactly
representable values in this development (integers, and a binary fraction
in one rotation scenario), so Python floats are modelled as exact
fractions with integer numerator and positive denominator, never
normalized; ordering compares by cross multiplication. -/

/-- An exact fraction standing in for a Python float. -/
structure PyFloat where
  num : Int
  den : Nat
deriving Repr, DecidableEq

/-- Multiplication of a float by a natural constant, as in the conversion
of megabytes to bytes. -/
def pyFloatMulNat (x : PyFloat) (n : Nat) : PyFloat :=
  { num := x.num * n, den := x.den }

/-- The comparison getsize result greater-or-equal threshold, for a
threshold with positive denominator. -/
def natGeFloat (s : Nat) (t : PyFloat) : Prop :=
  t.num ≤ (t.den : Int) * (s : Int)

instance (s : Nat) (t : PyFloat) : Decidable (natGeFloat s t) :=
  inferInstanceAs (Decidable (t.num ≤ (t.den : Int) * (s : Int)))

/-! ## Logger state and construction: SoleLog.__init__ -/

/-- The keyword arguments of SoleLog.__init__ (Logging.py lines 14 to 15).
The two float arguments are modelled as rationals. -/
structure InitArgs where
  colouredLog : Bool
  showTime : Bool
  logPriority : String
  logSaveFormat : String
  logDirPath : Option String
  logDirName : String
  flushInterval : PyFloat
  maxLogSizeMb : PyFloat
  showLogInConsole : Bool
  formatJsonLog : Bool
  makeNewLogDir : Bool
deriving Repr, DecidableEq

/-- The mutable attributes of a SoleLog instance.  Attributes that the
constructor only sets on some paths (sessionUuid, and the file related
attributes that exist only when a log directory was given) are Options;
none models the attribute being absent, so that reading it can fail the
way Python raises AttributeError.  The queue holds records, with none as
the shutdown sentinel; files is the modelled filesystem. -/
structure LoggerState where
  logSaveFormat : String
  logDirName : String
  makeNewLogDir : Bool
  logPriority : String
  formatJsonLogs : Bool
  colouredLog : Bool
  showTime : Bool
  flushInterval : PyFloat
  maxLogSize : PyFloat
  showLogInConsole : Bool
  sessionUuid : Option String
  sessionLogs : List (String × List LogRecord)
  logDir : Option String
  rootDir : Option String
  sessionStartTime : Option String
  sessions : Nat
  logFile : Option String
  queue : List (Option LogRecord)
  files : List (String × String)
deriving Repr, DecidableEq

/-- Model of os.path.abspath: the identity, paths in the model being taken
as already absolute. -/
def absPath (p : String) : String := p

/-- Model of os.path.join for a relative second component. -/
def joinPath (a b : String) : String := a ++ "/" ++ b

/-- The generated file name pattern of Logging.py lines 103, 106, 292 and
294: dirName underscore sessionStartTime, then the counter in parentheses
and the extension. -/
def logFileName (dirName t : String) (n : Nat) (ext : String) : String :=
  dirName ++ "_" ++ t ++ "(" ++ toString n ++ ")." ++ ext

/-- SoleLog.__init__ (Logging.py lines 14 to 115).  now is the session
start timestamp the constructor reads from the clock, uuidv the generated
session uuid.  Directory creation always succeeds in the model, so the
PathNotFound and NotADirectory failures of the source are not reachable
here; the format ValueError is.  The source reports constructor errors and
exits the process, modelled as Except.error. -/
def initLogger (a : InitArgs) (now uuidv : String) : Except String LoggerState :=
  let fmt := pyStrip (pyLower a.logSaveFormat)
  let base : LoggerState := {
    logSaveFormat := fmt
    logDirName := a.logDirName
    makeNewLogDir := a.makeNewLogDir
    logPriority := pyUpper a.logPriority
    formatJsonLogs := a.formatJsonLog
    colouredLog := a.colouredLog
    showTime := a.showTime
    flushInterval := a.flushInterval
    maxLogSize := pyFloatMulNat (pyFloatMulNat a.maxLogSizeMb 1024) 1024
    showLogInConsole := a.showLogInConsole
    sessionUuid := if a.formatJsonLog = true then some uuidv else none
    sessionLogs := []
    logDir := none
    rootDir := none
    sessionStartTime := none
    sessions := 1
    logFile := none
    queue := []
    files := [] }
  match a.logDirPath with
  | none => Except.ok base
  | some p =>
    let dir := absPath p
    let rd := if a.makeNewLogDir = true then joinPath dir a.logDirName else dir
    if fmt = "json" then
      let f := joinPath rd (logFileName a.logDirName now base.sessions ("json"))
      Except.ok { base with logDir := some dir, rootDir := some rd,
                            sessionStartTime := some now, sessions := base.sessions + 1,
                            logFile := some f, files := mapUpdate base.files f ("") }
    else if fmt = "txt" then
      let f := joinPath rd (logFileName a.logDirName now base.sessions ("txt"))
      Except.ok { base with logDir := some dir, rootDir := some rd,
                            sessionStartTime := some now, sessions := base.sessions + 1,
                            logFile := some f, files := mapUpdate base.files f ("") }
    else Except.error ("ValueError: Only accepts json and txt format")

/-! ## Introspection accessors -/

/-- SoleLog.getSessionStartTime (Logging.py lines 354 to 355); reading the
attribute on a console-only logger raises AttributeError. -/
def getSessionStartTime (st : LoggerState) : Except String String :=
  match st.sessionStartTime with
  | some t => Except.ok t
  | none => Except.error ("AttributeError: sessionStartTime")

/-- SoleLog.logFilePath (Logging.py lines 357 to 358); reading the
attribute on a console-only logger raises AttributeError. -/
def logFilePath (st : LoggerState) : Except String String :=
  match st.logFile with
  | some f => Except.ok f
  | none => Except.error ("AttributeError: logFile")

/-! ## The emit path: SoleLog.__log and the public severity methods -/

/-- The class attribute SoleLog.__LOGS of ANSI styling codes (Logging.py
lines 126 to 138), as a total function; the source indexes the dict only
with keys it contains. -/
def LOGS : String → String
  | "STYLEALT" => "\x1b[95m"
  | "DEBUG" => "\x1b[94m"
  | "INFO" => "\x1b[96m"
  | "STYLE" => "\x1b[92m"
  | "WARNING" => "\x1b[93m"
  | "ERROR" => "\x1b[91m"
  | "RESET" => "\x1b[0m"
  | "BOLD" => "\x1b[1m"
  | "WHITE" => "\x1b[97m"
  | "UNDERLINE" => "\x1b[4m"
  | "CRITICAL" => "\x1b[91m"
  | _ => ""

/-- The effective timestamp prefix of SoleLog.__log (Logging.py lines 193
to 202): an explicit showTime argument wins over the instance default, and
a shown timestamp carries one trailing space. -/
def effectiveCurrentTime (instShowTime : Bool) (showTimeArg : Option Bool) (now : String) :
    String :=
  match showTimeArg with
  | some b => if b then now ++ " " else ""
  | none => if instShowTime then now ++ " " else ""

/-- The uncoloured console line of SoleLog.__log (Logging.py line 214). -/
def plainGeneratedLog (currentTime logType : String) (info : FrameInfo) (message : String) :
    String :=
  currentTime ++ "| " ++ padRight logType 8 ++ "| " ++ padRight info.filename 65 ++
    padRight info.function 20 ++ " -> " ++ padRight (toString info.lineno) 5 ++ " - " ++ message

/-- The coloured console line of SoleLog.__log (Logging.py lines 205 to
212), with sepColor bound to the STYLEALT code and callerInfoColor to the
white-foreground code as in lines 190 to 191. -/
def colouredGeneratedLog (currentTime logType : String) (info : FrameInfo) (message : String) :
    String :=
  LOGS ("STYLE") ++ currentTime ++
    LOGS ("BOLD") ++ LOGS ("STYLEALT") ++ "|" ++ LOGS ("RESET") ++ " " ++
    LOGS ("BOLD") ++ (if pyUpper logType = "CRITICAL" then LOGS ("UNDERLINE") else "") ++
    LOGS (logType) ++ padRight logType 8 ++ LOGS ("RESET") ++ " " ++
    LOGS ("STYLEALT") ++ LOGS ("BOLD") ++ "|" ++ LOGS ("RESET") ++
    "\x1b[37m" ++ " " ++ padRight info.filename 65 ++
    LOGS ("STYLEALT") ++ LOGS ("BOLD") ++ " -> " ++ LOGS ("RESET") ++
    LOGS ("INFO") ++ padRight info.function 20 ++
    LOGS ("STYLEALT") ++ LOGS ("BOLD") ++ " -> " ++ LOGS ("RESET") ++
    LOGS ("WHITE") ++ LOGS ("BOLD") ++ padRight (toString info.lineno) 5 ++
    LOGS ("STYLEALT") ++ " -" ++ LOGS ("RESET") ++
    LOGS (logType) ++ LOGS ("BOLD") ++ " " ++
    (if pyUpper logType = "CRITICAL" then LOGS ("UNDERLINE") else "") ++ message ++
    LOGS ("RESET")

/-- The key-initialization step of Logging.py lines 239 to 241: when
aggregate mode is on, the session uuid is bound to an empty record list in
sessionLogs unless it is already present.  Reading the sessionUuid
attribute when it was never set raises AttributeError. -/
def ensureSession (st : LoggerState) : Except String LoggerState :=
  if st.formatJsonLogs = true then
    match st.sessionUuid with
    | none => Except.error ("AttributeError: sessionUuid")
    | some u =>
      match listLookup st.sessionLogs u with
      | some _ => Except.ok st
      | none => Except.ok { st with sessionLogs := st.sessionLogs ++ [(u, [])] }
  else Except.ok st

/-- SoleLog.__log (Logging.py lines 153 to 253).  The return value pairs
the console string (some when the caller should print it, none otherwise)
with the successor state.  now and info stand for the clock reading and
the inspected caller frame.  With no log directory the method only decides
the console echo; with a log directory it always builds the currentLog
dict and enqueues it, suppressing only the console string when the
severity ranks below the configured minimum, and then resolves the echo
policy through the if chain of lines 243 to 253. -/
def logEmit (st : LoggerState) (logType message : String)
    (showTimeArg explicitLogConsole : Option Bool) (now : String) (info : FrameInfo) :
    Except String (Option String × LoggerState) :=
  let currentTime := effectiveCurrentTime st.showTime showTimeArg now
  let generatedLog :=
    if st.colouredLog = true then colouredGeneratedLog currentTime logType info message
    else plainGeneratedLog currentTime logType info message
  if st.logDir = none then
    match getPriority logType, getPriority st.logPriority with
    | Except.error e, _ => Except.error e
    | Except.ok _, Except.error e => Except.error e
    | Except.ok p, Except.ok q =>
      if p < q then Except.ok (none, st) else Except.ok (some generatedLog, st)
  else
    match getPriority logType, getPriority st.logPriority with
    | Except.error e, _ => Except.error e
    | Except.ok _, Except.error e => Except.error e
    | Except.ok p, Except.ok q =>
      let gl : Option String := if p < q then none else some generatedLog
      let cur := currentLogOf currentTime logType info message
      let st1 : LoggerState := { st with queue := st.queue ++ [some cur] }
      match ensureSession st1 with
      | Except.error e => Except.error e
      | Except.ok st2 =>
        if explicitLogConsole = some true then Except.ok (gl, st2)
        else if explicitLogConsole = some false ∧ st2.showLogInConsole = true then
          Except.ok (none, st2)
        else if st2.showLogInConsole = true then Except.ok (gl, st2)
        else Except.ok (none, st2)

/-- One call of a public severity method, as data: the severity name the
method passes, the message, the two optional overrides, and the
environment inputs of the call. -/
structure EmitCall where
  logType : String
  message : String
  showTimeArg : Option Bool
  explicitLogConsole : Option Bool
  now : String
  info : FrameInfo
deriving Repr, DecidableEq

/-- The record a call would enqueue, given the instance default for
timestamps. -/
def recordOfCall (instShowTime : Bool) (c : EmitCall) : LogRecord :=
  currentLogOf (effectiveCurrentTime instShowTime c.showTimeArg c.now) c.logType c.info
    c.message

/-- A sequence of public severity method calls, threading the state and
discarding the printed strings. -/
def runEmits : LoggerState → List EmitCall → Except String LoggerState
  | st, [] => Except.ok st
  | st, c :: cs =>
    match logEmit st c.logType c.message c.showTimeArg c.explicitLogConsole c.now c.info with
    | Except.error e => Except.error e
    | Except.ok (_, st1) => runEmits st1 cs

/-! ## Rotation, the writer loop and shutdown -/

/-- SoleLog.__logRotation (Logging.py lines 273 to 302): under the lock,
stat the active file; when its size reaches maxLogSize, name the next file
with the current counter, increment the counter and truncate the new file.
With a save format that is neither json nor txt the file name is left
unchanged, so the open in line 296 truncates the current file; that branch
is unreachable from a constructed logger.  File sizes are utf8 byte
counts, compared against the rational byte threshold. -/
def logRotation (st : LoggerState) : Except String LoggerState :=
  match st.logFile with
  | none => Except.error ("AttributeError: logFile")
  | some f =>
    match listLookup st.files f with
    | none => Except.error ("FileNotFoundError: stat on a missing file")
    | some content =>
      if natGeFloat content.utf8ByteSize st.maxLogSize then
        match st.rootDir, st.sessionStartTime with
        | some rd, some t =>
          let f2 :=
            if st.logSaveFormat = "json" then
              joinPath rd (logFileName st.logDirName t st.sessions ("json"))
            else if st.logSaveFormat = "txt" then
              joinPath rd (logFileName st.logDirName t st.sessions ("txt"))
            else f
          Except.ok { st with logFile := some f2, sessions := st.sessions + 1,
                              files := mapUpdate st.files f2 ("") }
        | _, _ => Except.error ("AttributeError: rootDir or sessionStartTime")
      else Except.ok st

/-- The aggregate-mode accumulation step of Logging.py line 335: append the
dequeued record to the list bound to the session uuid; a missing attribute
or a missing key raises. -/
def appendSession (st : LoggerState) (r : LogRecord) : Except String LoggerState :=
  if st.formatJsonLogs = true then
    match st.sessionUuid with
    | none => Except.error ("AttributeError: sessionUuid")
    | some u =>
      match listLookup st.sessionLogs u with
      | none => Except.error ("KeyError: session uuid not in sessionLogs")
      | some l => Except.ok { st with sessionLogs := mapUpdate st.sessionLogs u (l ++ [r]) }
  else Except.ok st

/-- The txt-mode line appended per record (Logging.py line 346). -/
def txtLine (r : LogRecord) : String :=
  "[" ++ r.Timestamp ++ "] -> [" ++ padRight r.Level 8 ++ "] - " ++ r.Message ++ "\n"

/-- The body of the writer loop of SoleLog.__writeToFile for one dequeued
record (Logging.py lines 331 to 348): rotate if needed, accumulate into
the session in aggregate mode, then persist per the configured format —
a full overwrite of the active file with the dumped session in
aggregate-json mode, an appended json.dumps line in plain json mode, an
appended formatted line in txt mode.  The flush-interval sleep has no
effect on the state and is not modelled. -/
def writeOneRecord (st : LoggerState) (r : LogRecord) : Except String LoggerState :=
  match logRotation st with
  | Except.error e => Except.error e
  | Except.ok st1 =>
    match appendSession st1 r with
    | Except.error e => Except.error e
    | Except.ok st2 =>
      match st2.logFile with
      | none => Except.error ("AttributeError: logFile")
      | some f =>
        if st2.logSaveFormat = "json" ∧ st2.formatJsonLogs = true then
          Except.ok { st2 with
            files := mapUpdate st2.files f (dumpInd 0 (sessionLogsJson st2.sessionLogs)) }
        else if st2.logSaveFormat = "json" ∧ st2.formatJsonLogs = false then
          Except.ok { st2 with
            files := mapUpdate st2.files f
              (((listLookup st2.files f).getD ("")) ++ dumps (recToJson r) ++ "\n") }
        else if st2.logSaveFormat = "txt" then
          Except.ok { st2 with
            files := mapUpdate st2.files f (((listLookup st2.files f).getD ("")) ++ txtLine r) }
        else Except.ok st2

/-- The writer loop of SoleLog.__writeToFile (Logging.py lines 327 to 352)
run over a list of queued items: process records in order, stop at the
none sentinel, abandoning whatever follows it. -/
def runWriter : List (Option LogRecord) → LoggerState → Except String LoggerState
  | [], st => Except.ok st
  | none :: _, st => Except.ok st
  | some r :: rest, st =>
    match writeOneRecord st r with
    | Except.error e => Except.error e
    | Except.ok st1 => runWriter rest st1

/-- The outcome SoleLog.close reports on the console. -/
inductive CloseOutcome where
  | shutdownOk : CloseOutcome
  | deletedEmpty : CloseOutcome
deriving Repr, DecidableEq

/-- SoleLog.close (Logging.py lines 391 to 413): enqueue the sentinel,
join the writer (modelled by running the writer over the queue followed by
the sentinel), then open the final active file — success when it is
non-empty, otherwise delete it.  os.remove never fails in the modelled
filesystem, so the best-effort branch of lines 412 to 413 is not
reachable; reading the logFile attribute of a console-only logger raises
AttributeError. -/
def closeLogger (st : LoggerState) : Except String (CloseOutcome × LoggerState) :=
  match runWriter (st.queue ++ [none]) { st with queue := [] } with
  | Except.error e => Except.error e
  | Except.ok st1 =>
    match st1.logFile with
    | none => Except.error ("AttributeError: logFile")
    | some f =>
      match listLookup st1.files f with
      | none => Except.error ("FileNotFoundError: open on a missing file")
      | some content =>
        if content ≠ "" then Except.ok (CloseOutcome.shutdownOk, st1)
        else Except.ok (CloseOutcome.deletedEmpty, { st1 with files := fileRemove st1.files f })


/-! ## Small helpers and facts shared by the proofs -/

/-- Whether an Except value is a success. -/
def exceptOk {α : Type} : Except String α → Bool
  | Except.ok _ => true
  | Except.error _ => false

theorem listLookup_mapUpdate_self {α : Type} (m : List (String × α)) (k : String) (v : α) :
    listLookup (mapUpdate m k v) k = some v := by
  induction m with
  | nil => simp [mapUpdate, listLookup]
  | cons kv rest ih =>
    obtain ⟨k0, v0⟩ := kv
    by_cases h : k0 = k
    · subst h
      simp [mapUpdate, listLookup]
    · simp [mapUpdate, listLookup, h, ih]

theorem mem_LOGGINGLEVELS (l : String) (h : l ∈ LOGGINGLEVELS) :
    l = "DEBUG" ∨ l = "INFO" ∨ l = "WARNING" ∨ l = "ERROR" ∨ l = "CRITICAL" := by
  simpa [LOGGINGLEVELS] using h

theorem getPriority_of_mem (l : String) (h : l ∈ LOGGINGLEVELS) :
    ∃ n, getPriority l = Except.ok n := by
  rcases mem_LOGGINGLEVELS l h with rfl | rfl | rfl | rfl | rfl
  · exact ⟨0, rfl⟩
  · exact ⟨1, rfl⟩
  · exact ⟨2, rfl⟩
  · exact ⟨3, rfl⟩
  · exact ⟨4, rfl⟩

/-- ensureSession only ever touches the sessionLogs attribute. -/
theorem ensureSession_fields (st st' : LoggerState) (h : ensureSession st = Except.ok st') :
    st'.queue = st.queue ∧ st'.files = st.files ∧ st'.logFile = st.logFile ∧
    st'.logSaveFormat = st.logSaveFormat ∧ st'.formatJsonLogs = st.formatJsonLogs ∧
    st'.sessionUuid = st.sessionUuid ∧ st'.showTime = st.showTime ∧
    st'.logDir = st.logDir ∧ st'.logPriority = st.logPriority ∧
    st'.logDirName = st.logDirName ∧ st'.maxLogSize = st.maxLogSize ∧
    st'.rootDir = st.rootDir ∧ st'.sessionStartTime = st.sessionStartTime ∧
    st'.sessions = st.sessions ∧ st'.showLogInConsole = st.showLogInConsole := by
  unfold ensureSession at h
  split at h
  · split at h
    · exact Except.noConfusion h
    · split at h
      · injection h with h1
        subst h1
        simp_all
      · injection h with h1
        subst h1
        simp_all
  · injection h with h1
    subst h1
    simp_all

/-- With a configured log directory, a successful call of the internal log
method always enqueues the currentLog record, and the successor state is
exactly the result of ensureSession on the queue-extended state. -/
theorem logEmit_dir_ensure (st : LoggerState) (logType message : String)
    (sta expl : Option Bool) (now : String) (info : FrameInfo) (out : Option String)
    (st' : LoggerState) (hd : st.logDir ≠ none)
    (h : logEmit st logType message sta expl now info = Except.ok (out, st')) :
    ensureSession { st with queue := st.queue ++
      [some (currentLogOf (effectiveCurrentTime st.showTime sta now) logType info message)] } =
      Except.ok st' := by
  unfold logEmit at h
  rw [if_neg hd] at h
  dsimp only [] at h
  split at h
  · exact Except.noConfusion h
  · exact Except.noConfusion h
  · split at h
    · exact Except.noConfusion h
    · rename_i heq
      split at h <;>
        first
          | (injection h with h1
             rw [Prod.mk.injEq] at h1
             exact h1.2 ▸ heq)
          | (split at h <;>
              first
                | (injection h with h1
                   rw [Prod.mk.injEq] at h1
                   exact h1.2 ▸ heq)
                | (split at h <;>
                    (injection h with h1
                     rw [Prod.mk.injEq] at h1
                     exact h1.2 ▸ heq)))

/-- What a successful rotation check preserves, and that it always leaves
an existing active file behind (the old one, or the freshly truncated
one). -/
theorem logRotation_fields (st st' : LoggerState) (h : logRotation st = Except.ok st') :
    st'.logSaveFormat = st.logSaveFormat ∧ st'.formatJsonLogs = st.formatJsonLogs ∧
    st'.sessionLogs = st.sessionLogs ∧ st'.sessionUuid = st.sessionUuid ∧
    st'.queue = st.queue ∧ st'.logDirName = st.logDirName ∧
    st'.maxLogSize = st.maxLogSize ∧ st'.rootDir = st.rootDir ∧
    st'.sessionStartTime = st.sessionStartTime ∧ st'.logDir = st.logDir ∧
    st'.showTime = st.showTime ∧ st'.showLogInConsole = st.showLogInConsole ∧
    ∃ f c, st'.logFile = some f ∧ listLookup st'.files f = some c := by
  unfold logRotation at h
  split at h
  · exact Except.noConfusion h
  · rename_i f hf
    split at h
    · exact Except.noConfusion h
    · rename_i c hc
      split at h
      · split at h
        · injection h with h1
          subst h1
          refine ⟨rfl, rfl, rfl, rfl, rfl, rfl, rfl, rfl, rfl, rfl, rfl, rfl, ?_⟩
          exact ⟨_, "", rfl, listLookup_mapUpdate_self _ _ _⟩
        · exact Except.noConfusion h
      · injection h with h1
        subst h1
        refine ⟨rfl, rfl, rfl, rfl, rfl, rfl, rfl, rfl, rfl, rfl, rfl, rfl, ?_⟩
        exact ⟨f, c, hf, hc⟩

/-- The aggregate accumulation step only ever touches sessionLogs. -/
theorem appendSession_fields (st st' : LoggerState) (r : LogRecord)
    (h : appendSession st r = Except.ok st') :
    st'.files = st.files ∧ st'.logFile = st.logFile ∧
    st'.logSaveFormat = st.logSaveFormat ∧ st'.formatJsonLogs = st.formatJsonLogs ∧
    st'.queue = st.queue ∧ st'.sessionUuid = st.sessionUuid ∧
    st'.maxLogSize = st.maxLogSize ∧ st'.rootDir = st.rootDir ∧
    st'.sessionStartTime = st.sessionStartTime ∧ st'.logDirName = st.logDirName := by
  unfold appendSession at h
  split at h
  · split at h
    · exact Except.noConfusion h
    · split at h
      · exact Except.noConfusion h
      · injection h with h1
        subst h1
        simp_all
  · injection h with h1
    subst h1
    simp_all

/-- In txt save format, a successful writer-loop step appends exactly the
formatted txt line for the record to the content of the (possibly freshly
rotated) active file. -/
theorem writeOneRecord_txt_append (st st' : LoggerState) (r : LogRecord)
    (htxt : st.logSaveFormat = "txt") (h : writeOneRecord st r = Except.ok st') :
    ∃ f old, st'.logFile = some f ∧
      listLookup st'.files f = some (old ++ txtLine r) := by
  unfold writeOneRecord at h
  split at h
  · exact Except.noConfusion h
  · rename_i st1 hrot
    obtain ⟨hfmt1, -, -, -, -, -, -, -, -, -, -, -, f, c, hf1, -⟩ := logRotation_fields st st1 hrot
    split at h
    · exact Except.noConfusion h
    · rename_i st2 happ
      obtain ⟨-, hlf2, hfmt2, -, -, -, -, -, -, -⟩ := appendSession_fields st1 st2 r happ
      split at h
      · rename_i hnone
        rw [hlf2, hf1] at hnone
        exact Option.noConfusion hnone
      · rename_i f2 hsome
        have hfmt : st2.logSaveFormat = "txt" := by rw [hfmt2, hfmt1, htxt]
        rw [hfmt] at h
        simp only [String.reduceEq, false_and, if_false, if_true] at h
        injection h with h1
        subst h1
        refine ⟨f2, (listLookup st2.files f2).getD (""), hsome, ?_⟩
        exact listLookup_mapUpdate_self _ _ _

/-! ## Concrete configurations and scenario runs used by the claims -/

/-- A caller frame as inspect would report it. -/
def frameA : FrameInfo := { filename := "app.py", function := "main", lineno := 42 }

/-- Plain txt logger with minimum priority WARNING and an output directory. -/
def argsWarnTxt : InitArgs :=
  { colouredLog := false, showTime := false, logPriority := "WARNING", logSaveFormat := "txt",
    logDirPath := some ("/logs"), logDirName := "myLog", flushInterval := ⟨0, 1⟩, maxLogSizeMb := ⟨5, 1⟩,
    showLogInConsole := true, formatJsonLog := false, makeNewLogDir := true }

/-- Console-only logger: no output directory, everything else default-like. -/
def argsConsoleOnly : InitArgs :=
  { colouredLog := false, showTime := false, logPriority := "DEBUG", logSaveFormat := "json",
    logDirPath := none, logDirName := "myLog", flushInterval := ⟨0, 1⟩, maxLogSizeMb := ⟨5, 1⟩,
    showLogInConsole := true, formatJsonLog := false, makeNewLogDir := true }

/-- Invalid save format, no output directory. -/
def argsXmlNoDir : InitArgs :=
  { colouredLog := false, showTime := false, logPriority := "DEBUG", logSaveFormat := "xml",
    logDirPath := none, logDirName := "myLog", flushInterval := ⟨0, 1⟩, maxLogSizeMb := ⟨5, 1⟩,
    showLogInConsole := true, formatJsonLog := false, makeNewLogDir := true }

/-- Invalid save format, with an output directory. -/
def argsXmlDir : InitArgs :=
  { colouredLog := false, showTime := false, logPriority := "DEBUG", logSaveFormat := "xml",
    logDirPath := some ("/logs"), logDirName := "myLog", flushInterval := ⟨0, 1⟩, maxLogSizeMb := ⟨5, 1⟩,
    showLogInConsole := true, formatJsonLog := false, makeNewLogDir := true }

/-- Txt logger with a one-byte rotation threshold, so that any single
record exceeds it. -/
def argsTinyTxt : InitArgs :=
  { colouredLog := false, showTime := false, logPriority := "DEBUG", logSaveFormat := "txt",
    logDirPath := some ("/logs"), logDirName := "myLog", flushInterval := ⟨0, 1⟩,
    maxLogSizeMb := ⟨1, 1048576⟩, showLogInConsole := true, formatJsonLog := false,
    makeNewLogDir := true }

/-- Json-per-line logger with an output directory. -/
def argsDirJson : InitArgs :=
  { colouredLog := false, showTime := false, logPriority := "DEBUG", logSaveFormat := "json",
    logDirPath := some ("/logs"), logDirName := "myLog", flushInterval := ⟨0, 1⟩, maxLogSizeMb := ⟨5, 1⟩,
    showLogInConsole := true, formatJsonLog := false, makeNewLogDir := true }

/-- The record the emit calls below enqueue for a DEBUG boot message with
the timestamp suppressed. -/
def recDebugBoot : LogRecord :=
  { Timestamp := "", Level := "DEBUG   ", Path := padRight ("app.py") 65,
    Module := "main      ", Line := "42   ", Message := "boot" }

/-- Construct with minimum priority WARNING and an output directory, emit
one DEBUG record with echoToConsole explicitly true, close.  Reports the
returned console string, the queue contents after the emit, the shutdown
outcome and the final content of the active file. -/
def scenarioFilteredEmit :
    Except String ((Option String) × List (Option LogRecord) × CloseOutcome × Option String) :=
  match initLogger argsWarnTxt ("2026-01-01_00-00-00") ("u") with
  | Except.error e => Except.error e
  | Except.ok st0 =>
    match logEmit st0 ("DEBUG") ("boot") none (some true) ("T") frameA with
    | Except.error e => Except.error e
    | Except.ok (out, st1) =>
      match closeLogger st1 with
      | Except.error e => Except.error e
      | Except.ok (oc, st2) =>
        Except.ok (out, st1.queue, oc,
          (match st1.logFile with | some f => listLookup st2.files f | none => none))

/-- Construct with an output directory and never emit at all, then close.
Reports the shutdown outcome and the final filesystem. -/
def scenarioNoEmitClose : Except String (CloseOutcome × List (String × String)) :=
  match initLogger argsWarnTxt ("2026-01-01_00-00-00") ("u") with
  | Except.error e => Except.error e
  | Except.ok st0 =>
    match closeLogger st0 with
    | Except.error e => Except.error e
    | Except.ok (oc, st2) => Except.ok (oc, st2.files)

/-- Construct with minimum priority WARNING and an output directory, emit
only one DEBUG record (below the minimum), then close.  Reports the
shutdown outcome and the final content of the active file. -/
def scenarioFilteredEmitClose : Except String (CloseOutcome × Option String) :=
  match initLogger argsWarnTxt ("2026-01-01_00-00-00") ("u") with
  | Except.error e => Except.error e
  | Except.ok st0 =>
    match logEmit st0 ("DEBUG") ("boot") none none ("T") frameA with
    | Except.error e => Except.error e
    | Except.ok (_, st1) =>
      match closeLogger st1 with
      | Except.error e => Except.error e
      | Except.ok (oc, st2) =>
        Except.ok (oc, (match st2.logFile with | some f => listLookup st2.files f | none => none))

/-- Console-only logger, emit an admitted INFO record with echoToConsole
explicitly false.  Reports the returned console string. -/
def scenarioConsoleOnlyExplicitOff : Except String (Option String) :=
  match initLogger argsConsoleOnly ("2026-01-01_00-00-00") ("u") with
  | Except.error e => Except.error e
  | Except.ok st0 =>
    match logEmit st0 ("INFO") ("boot") none (some false) ("T") frameA with
    | Except.error e => Except.error e
    | Except.ok (out, _) => Except.ok out

/-- Logger with an output directory, emit an admitted INFO record with
echoToConsole explicitly false.  Reports the returned console string. -/
def scenarioDirExplicitOff : Except String (Option String) :=
  match initLogger argsDirJson ("2026-01-01_00-00-00") ("u") with
  | Except.error e => Except.error e
  | Except.ok st0 =>
    match logEmit st0 ("INFO") ("boot") none (some false) ("T") frameA with
    | Except.error e => Except.error e
    | Except.ok (out, _) => Except.ok out

/-! ## Claim C1 -/

/-- Claim C1 states that with an output directory configured, a record
whose severity ranks below the configured minimum never enters the ingest
queue and is never written to the persisted file.  The code only blanks
the console string before the queue insertion: with minimum priority
WARNING, emitting one DEBUG record with echoToConsole explicitly true
returns no console string, yet the record is enqueued, the writer persists
its txt line, and close therefore reports a successful non-empty
shutdown. -/
theorem c1_below_priority_record_still_persisted :
    scenarioFilteredEmit =
      Except.ok (none, [some recDebugBoot], CloseOutcome.shutdownOk,
        some ("[] -> [DEBUG   ] - boot\n")) := rfl

/-! ## Claim C2 -/

/-- Claim C2 states that rank succeeds on the five canonical severity
names interpreted case-insensitively.  The ranks of the five upper-case
names are indeed strictly increasing in the declared order, but for the
lower-case spelling debug the case-insensitive membership check passes and
the subsequent case-sensitive list.index lookup then raises ValueError, so
rank fails on a name the claim says it accepts. -/
theorem c2_rank_lowercase_canonical_fails :
    getPriority ("DEBUG") = Except.ok 0 ∧ getPriority ("INFO") = Except.ok 1 ∧
    getPriority ("WARNING") = Except.ok 2 ∧ getPriority ("ERROR") = Except.ok 3 ∧
    getPriority ("CRITICAL") = Except.ok 4 ∧
    pyUpper ("debug") ∈ LOGGINGLEVELS ∧
    getPriority ("debug") = Except.error ("ValueError: debug is not in list") := by
  refine ⟨rfl, rfl, rfl, rfl, rfl, ?_, rfl⟩
  decide

/-! ## Claim C3 -/

/-- Claim C3 counterexample: with saveFormat xml and no output directory,
construction succeeds, although the claim says any invalid format fails
construction regardless of the other options. -/
theorem c3_invalid_format_without_dir_accepted :
    exceptOk (initLogger argsXmlNoDir ("2026-01-01_00-00-00") ("u")) = true := rfl

/-- Claim C3 amended: a saveFormat that normalizes to neither json nor txt
fails construction with the format ValueError exactly when an output
directory is configured; with no output directory construction succeeds
whatever the format, because the format check sits inside the directory
branch of the constructor. -/
theorem c3_format_checked_only_with_dir :
    (∀ (a : InitArgs) (d now uuidv : String),
        a.logDirPath = some d →
        pyStrip (pyLower a.logSaveFormat) ≠ "json" →
        pyStrip (pyLower a.logSaveFormat) ≠ "txt" →
        initLogger a now uuidv =
          Except.error ("ValueError: Only accepts json and txt format")) ∧
    (∀ (a : InitArgs) (now uuidv : String),
        a.logDirPath = none → exceptOk (initLogger a now uuidv) = true) := by
  constructor
  · intro a d now uuidv hd h1 h2
    unfold initLogger
    rw [hd]
    dsimp only []
    rw [if_neg h1, if_neg h2]
  · intro a now uuidv hd
    unfold initLogger
    rw [hd]
    rfl

/-- Witness for claim C3: the amended statement applied to the xml
configurations with and without an output directory. -/
theorem c3_format_checked_only_with_dir_witness :
    initLogger argsXmlDir ("2026-01-01_00-00-00") ("u") =
      Except.error ("ValueError: Only accepts json and txt format") ∧
    exceptOk (initLogger argsXmlNoDir ("2026-01-01_00-00-00") ("u")) = true :=
  ⟨c3_format_checked_only_with_dir.1 argsXmlDir ("/logs") ("2026-01-01_00-00-00") ("u") rfl
      (by decide) (by decide),
    c3_format_checked_only_with_dir.2 argsXmlNoDir ("2026-01-01_00-00-00") ("u") rfl⟩

/-! ## Claim C6 -/

/-- Claim C6 states that constructing a logger, never emitting anything
admitted by the priority filter, then closing, deletes the log file.
With no emission at all this holds: close reports the no-logs outcome and
removes the file.  But emitting one DEBUG record below the WARNING
minimum leaves a persisted line in the file because the filter does not
guard the queue, so close finds a non-empty file, reports a successful
shutdown and deletes nothing, contradicting the claim. -/
theorem c6_filtered_emission_prevents_deletion :
    scenarioNoEmitClose = Except.ok (CloseOutcome.deletedEmpty, []) ∧
    scenarioFilteredEmitClose =
      Except.ok (CloseOutcome.shutdownOk, some ("[] -> [DEBUG   ] - boot\n")) :=
  ⟨rfl, rfl⟩

/-! ## Claim C8 -/

/-- Claim C8 states that an explicit echoToConsole argument wins over the
instance default and that a policy resolving to false yields no console
string in every configuration, including console-only mode.  In
console-only mode the code returns the generated string for every
admitted record without consulting the echo arguments at all, so an
admitted INFO record emitted with echoToConsole explicitly false still
comes back for printing; with an output directory the same call is
correctly suppressed. -/
theorem c8_console_only_ignores_explicit_false :
    scenarioConsoleOnlyExplicitOff =
      Except.ok (some (plainGeneratedLog ("") ("INFO") frameA ("boot"))) ∧
    scenarioDirExplicitOff = Except.ok none :=
  ⟨rfl, rfl⟩

/-! ## Claim C10 -/

/-- Claim C10: constructed without an output directory, the logger never
creates the log-file path, session-start timestamp and root-directory
attributes, so close, logFilePath and getSessionStartTime all fail with an
AttributeError instead of succeeding. -/
theorem c10_console_only_attribute_errors :
    ∀ (a : InitArgs) (now uuidv : String) (st : LoggerState),
      a.logDirPath = none →
      initLogger a now uuidv = Except.ok st →
      st.logFile = none ∧ st.rootDir = none ∧ st.sessionStartTime = none ∧
      closeLogger st = Except.error ("AttributeError: logFile") ∧
      logFilePath st = Except.error ("AttributeError: logFile") ∧
      getSessionStartTime st = Except.error ("AttributeError: sessionStartTime") := by
  intro a now uuidv st hd hinit
  unfold initLogger at hinit
  rw [hd] at hinit
  injection hinit with h1
  subst h1
  exact ⟨rfl, rfl, rfl, rfl, rfl, rfl⟩

/-- The state the constructor produces for the console-only
configuration. -/
def stConsoleOnly : LoggerState :=
  { logSaveFormat := "json", logDirName := "myLog", makeNewLogDir := true,
    logPriority := "DEBUG", formatJsonLogs := false, colouredLog := false, showTime := false,
    flushInterval := ⟨0, 1⟩, maxLogSize := ⟨5242880, 1⟩, showLogInConsole := true,
    sessionUuid := none, sessionLogs := [], logDir := none, rootDir := none,
    sessionStartTime := none, sessions := 1, logFile := none, queue := [], files := [] }

/-- Witness for claim C10: the console-only configuration. -/
theorem c10_console_only_attribute_errors_witness :
    closeLogger stConsoleOnly = Except.error ("AttributeError: logFile") ∧
    logFilePath stConsoleOnly = Except.error ("AttributeError: logFile") ∧
    getSessionStartTime stConsoleOnly = Except.error ("AttributeError: sessionStartTime") := by
  have h := c10_console_only_attribute_errors argsConsoleOnly ("2026-01-01_00-00-00") ("u")
    stConsoleOnly rfl rfl
  exact ⟨h.2.2.2.1, h.2.2.2.2.1, h.2.2.2.2.2⟩

/-! ## Claim C7 -/

/-- Claim C7: in txt save format every successful writer-loop step appends
to the active file exactly the line left bracket, timestamp, right
bracket, arrow, left bracket, level left-justified to width 8, right
bracket, dash, message; and a record produced by an emit call whose
effective show-timestamp flag is false carries an empty timestamp field,
so the bracketed timestamp is present but empty. -/
theorem c7_txt_persisted_line_format :
    (∀ (st st' : LoggerState) (r : LogRecord),
        st.logSaveFormat = "txt" →
        writeOneRecord st r = Except.ok st' →
        ∃ f old, st'.logFile = some f ∧
          listLookup st'.files f =
            some (old ++ ("[" ++ r.Timestamp ++ "] -> [" ++ padRight r.Level 8 ++ "] - " ++
              r.Message ++ "\n"))) ∧
    (∀ (st : LoggerState) (logType message : String) (expl : Option Bool) (now : String)
        (info : FrameInfo) (out : Option String) (st' : LoggerState),
        st.logDir ≠ none →
        logEmit st logType message (some false) expl now info = Except.ok (out, st') →
        st'.queue = st.queue ++ [some (currentLogOf ("") logType info message)] ∧
        (currentLogOf ("") logType info message).Timestamp = "") := by
  constructor
  · intro st st' r htxt h
    exact writeOneRecord_txt_append st st' r htxt h
  · intro st logType message expl now info out st' hd h
    have hens := logEmit_dir_ensure st logType message (some false) expl now info out st' hd h
    have hq := (ensureSession_fields _ _ hens).1
    exact ⟨hq, rfl⟩

/-- The state the constructor produces for the WARNING txt configuration
with output directory /logs. -/
def stTxtInit : LoggerState :=
  { logSaveFormat := "txt", logDirName := "myLog", makeNewLogDir := true,
    logPriority := "WARNING", formatJsonLogs := false, colouredLog := false, showTime := false,
    flushInterval := ⟨0, 1⟩, maxLogSize := ⟨5242880, 1⟩, showLogInConsole := true,
    sessionUuid := none, sessionLogs := [],
    logDir := some ("/logs"), rootDir := some ("/logs/myLog"),
    sessionStartTime := some ("2026-01-01_00-00-00"), sessions := 2,
    logFile := some ("/logs/myLog/myLog_2026-01-01_00-00-00(1).txt"), queue := [],
    files := [("/logs/myLog/myLog_2026-01-01_00-00-00(1).txt", "")] }

/-- Witness for claim C7: a writer-loop step on a concrete txt state and a
concrete emit with show-timestamp explicitly false. -/
theorem c7_txt_persisted_line_format_witness :
    (∃ f old, ({ stTxtInit with
        files := [("/logs/myLog/myLog_2026-01-01_00-00-00(1).txt",
          "[] -> [DEBUG   ] - boot\n")] } : LoggerState).logFile = some f ∧
      listLookup ({ stTxtInit with
        files := [("/logs/myLog/myLog_2026-01-01_00-00-00(1).txt",
          "[] -> [DEBUG   ] - boot\n")] } : LoggerState).files f =
        some (old ++ ("[" ++ recDebugBoot.Timestamp ++ "] -> [" ++
          padRight recDebugBoot.Level 8 ++ "] - " ++ recDebugBoot.Message ++ "\n"))) ∧
    ({ stTxtInit with queue := [some recDebugBoot] } : LoggerState).queue =
      stTxtInit.queue ++ [some (currentLogOf ("") ("DEBUG") frameA ("boot"))] ∧
    (currentLogOf ("") ("DEBUG") frameA ("boot")).Timestamp = "" :=
  ⟨c7_txt_persisted_line_format.1 stTxtInit
      ({ stTxtInit with files := [("/logs/myLog/myLog_2026-01-01_00-00-00(1).txt",
          "[] -> [DEBUG   ] - boot\n")] }) recDebugBoot rfl rfl,
    c7_txt_persisted_line_format.2 stTxtInit ("DEBUG") ("boot") none ("T") frameA none
      ({ stTxtInit with queue := [some recDebugBoot] }) (by decide) rfl⟩

/-! ## Claim C9 -/

/-- The record an admitted INFO emit enqueues, with the caller frame at
line 42 and the timestamp suppressed. -/
def recInfoBoot : LogRecord :=
  { Timestamp := "", Level := "INFO    ", Path := padRight ("app.py") 65,
    Module := "main      ", Line := "42   ", Message := "boot" }

/-- Json-per-line logger, one INFO emit; reports the queue after it. -/
def scenarioRecordJson : Except String (List (Option LogRecord)) :=
  match initLogger argsDirJson ("2026-01-01_00-00-00") ("u") with
  | Except.error e => Except.error e
  | Except.ok st0 =>
    match logEmit st0 ("INFO") ("boot") none none ("T") frameA with
    | Except.error e => Except.error e
    | Except.ok (_, st1) => Except.ok st1.queue

/-- Claim C9 counterexample: the record an INFO emit from caller line 42
places into the persisted stream does not carry the line number as an
integer and its level is not exactly a canonical name: the Line field is
the width-5 left-justified string 42 and three spaces, serialized as a
JSON string and not a JSON number, and the Level field is INFO padded to
width 8, which is not one of the five canonical names. -/
theorem c9_line_field_is_padded_string :
    scenarioRecordJson = Except.ok ([some recInfoBoot]) ∧
    recInfoBoot.Level = "INFO    " ∧
    LOGGINGLEVELS.contains (recInfoBoot.Level) = false ∧
    jsonField (recToJson recInfoBoot) ("Line") = some (Json.str ("42   ")) ∧
    jsonIsNum (Json.str ("42   ")) = false :=
  ⟨rfl, rfl, rfl, rfl, rfl⟩

/-- Claim C9 amended: every record entering the persisted stream carries
the keys Timestamp, Level, Path, Module, Line and Message, in that order,
in its JSON-per-line object; its Level is the passed severity name
left-justified to width 8, its Line the caller line number rendered as a
width-5 left-justified decimal string, and its Message the raw message. -/
theorem c9_record_fields :
    ∀ (st : LoggerState) (logType message : String) (sta expl : Option Bool) (now : String)
      (info : FrameInfo) (out : Option String) (st' : LoggerState),
      st.logDir ≠ none →
      logEmit st logType message sta expl now info = Except.ok (out, st') →
      ∃ r, st'.queue = st.queue ++ [some r] ∧
        r.Level = padRight logType 8 ∧
        r.Line = padRight (toString info.lineno) 5 ∧
        r.Message = message ∧
        jsonKeys (recToJson r) =
          ["Timestamp", "Level", "Path", "Module", "Line", "Message"] := by
  intro st logType message sta expl now info out st' hd h
  have hens := logEmit_dir_ensure st logType message sta expl now info out st' hd h
  have hq := (ensureSession_fields _ _ hens).1
  exact ⟨currentLogOf (effectiveCurrentTime st.showTime sta now) logType info message,
    hq, rfl, rfl, rfl, rfl⟩

/-- Witness for claim C9: the concrete INFO emit on the txt state. -/
theorem c9_record_fields_witness :
    ∃ r, ({ stTxtInit with queue := [some recDebugBoot] } : LoggerState).queue =
        stTxtInit.queue ++ [some r] ∧
      r.Level = padRight ("DEBUG") 8 ∧
      r.Line = padRight (toString frameA.lineno) 5 ∧
      r.Message = "boot" ∧
      jsonKeys (recToJson r) =
        ["Timestamp", "Level", "Path", "Module", "Line", "Message"] :=
  c9_record_fields stTxtInit ("DEBUG") ("boot") (some false) none ("T") frameA none
    ({ stTxtInit with queue := [some recDebugBoot] }) (by decide) rfl

/-! ## Claim C4 -/

/-- Tiny-threshold txt logger: two INFO emits, then close.  Reports the
final rotation counter and the filesystem. -/
def scenarioTinyRotation : Except String (Nat × List (String × String)) :=
  match initLogger argsTinyTxt ("2026-01-01_00-00-00") ("u") with
  | Except.error e => Except.error e
  | Except.ok st0 =>
    match logEmit st0 ("INFO") ("a") none none ("T") frameA with
    | Except.error e => Except.error e
    | Except.ok (_, st1) =>
      match logEmit st1 ("INFO") ("b") none none ("T") frameA with
      | Except.error e => Except.error e
      | Except.ok (_, st2) =>
        match closeLogger st2 with
        | Except.error e => Except.error e
        | Except.ok (_, st3) => Except.ok (st3.sessions, st3.files)

/-- Claim C4: the rotation counter starts at 1 and the constructor names
the first file with counter 1, leaving the counter at 2; the rotation
check switches to a new truncated file named with the current counter and
increments it exactly when the active file size reaches the threshold,
and leaves the state untouched otherwise; and with a threshold one single
record exceeds, two emits yield two distinct files, the second named with
counter 2. -/
theorem c4_rotation_counter :
    (∀ (a : InitArgs) (pth now uuidv : String) (st0 : LoggerState),
        a.logDirPath = some pth →
        pyStrip (pyLower a.logSaveFormat) = "txt" →
        initLogger a now uuidv = Except.ok st0 →
        st0.sessions = 2 ∧
        st0.logFile = some (joinPath
          (if a.makeNewLogDir = true then joinPath (absPath pth) a.logDirName else absPath pth)
          (logFileName a.logDirName now 1 ("txt")))) ∧
    (∀ (st : LoggerState) (f rd t c : String),
        st.logFile = some f → st.rootDir = some rd → st.sessionStartTime = some t →
        listLookup st.files f = some c → st.logSaveFormat = "txt" →
        (natGeFloat c.utf8ByteSize st.maxLogSize →
          logRotation st = Except.ok { st with
            logFile := some (joinPath rd (logFileName st.logDirName t st.sessions ("txt"))),
            sessions := st.sessions + 1,
            files := mapUpdate st.files
              (joinPath rd (logFileName st.logDirName t st.sessions ("txt"))) ("") }) ∧
        (¬ natGeFloat c.utf8ByteSize st.maxLogSize → logRotation st = Except.ok st)) ∧
    scenarioTinyRotation =
      Except.ok (3,
        [("/logs/myLog/myLog_2026-01-01_00-00-00(1).txt", "[] -> [INFO    ] - a\n"),
         ("/logs/myLog/myLog_2026-01-01_00-00-00(2).txt", "[] -> [INFO    ] - b\n")]) := by
  refine ⟨?_, ?_, rfl⟩
  · intro a pth now uuidv st0 hd hfmt hinit
    unfold initLogger at hinit
    rw [hd] at hinit
    dsimp only [] at hinit
    rw [hfmt] at hinit
    simp only [String.reduceEq, if_false, if_true] at hinit
    injection hinit with h1
    subst h1
    exact ⟨rfl, rfl⟩
  · intro st f rd t c hf hrd ht hc htxt
    constructor
    · intro hge
      unfold logRotation
      simp only [hf, hc, hrd, ht, htxt, hge, if_true, String.reduceEq, if_false]
    · intro hlt
      unfold logRotation
      simp only [hf, hc, hrd, ht, hlt, if_false]

/-- The tiny-threshold logger just before the second record is persisted:
one txt line in the first file, byte threshold one. -/
def stTinyAfterOne : LoggerState :=
  { logSaveFormat := "txt", logDirName := "myLog", makeNewLogDir := true,
    logPriority := "DEBUG", formatJsonLogs := false, colouredLog := false, showTime := false,
    flushInterval := ⟨0, 1⟩, maxLogSize := ⟨1048576, 1048576⟩, showLogInConsole := true,
    sessionUuid := none, sessionLogs := [],
    logDir := some ("/logs"), rootDir := some ("/logs/myLog"),
    sessionStartTime := some ("2026-01-01_00-00-00"), sessions := 2,
    logFile := some ("/logs/myLog/myLog_2026-01-01_00-00-00(1).txt"), queue := [],
    files := [("/logs/myLog/myLog_2026-01-01_00-00-00(1).txt", "[] -> [INFO    ] - a\n")] }

/-- Witness for claim C4: the constructor part on the WARNING txt
configuration, a triggered rotation on the tiny-threshold state, and an
untriggered rotation on the empty five-megabyte state. -/
theorem c4_rotation_counter_witness :
    (stTxtInit.sessions = 2 ∧
      stTxtInit.logFile = some (joinPath
        (if argsWarnTxt.makeNewLogDir = true then
          joinPath (absPath ("/logs")) argsWarnTxt.logDirName
        else absPath ("/logs"))
        (logFileName argsWarnTxt.logDirName ("2026-01-01_00-00-00") 1 ("txt")))) ∧
    logRotation stTinyAfterOne = Except.ok { stTinyAfterOne with
      logFile := some (joinPath ("/logs/myLog")
        (logFileName stTinyAfterOne.logDirName ("2026-01-01_00-00-00")
          stTinyAfterOne.sessions ("txt"))),
      sessions := stTinyAfterOne.sessions + 1,
      files := mapUpdate stTinyAfterOne.files
        (joinPath ("/logs/myLog")
          (logFileName stTinyAfterOne.logDirName ("2026-01-01_00-00-00")
            stTinyAfterOne.sessions ("txt"))) ("") } ∧
    logRotation stTxtInit = Except.ok stTxtInit :=
  ⟨c4_rotation_counter.1 argsWarnTxt ("/logs") ("2026-01-01_00-00-00") ("u") stTxtInit rfl rfl
      rfl,
    (c4_rotation_counter.2.1 stTinyAfterOne ("/logs/myLog/myLog_2026-01-01_00-00-00(1).txt")
        ("/logs/myLog") ("2026-01-01_00-00-00") ("[] -> [INFO    ] - a\n")
        rfl rfl rfl rfl rfl).1 (by decide),
    (c4_rotation_counter.2.1 stTxtInit ("/logs/myLog/myLog_2026-01-01_00-00-00(1).txt")
        ("/logs/myLog") ("2026-01-01_00-00-00") ("") rfl rfl rfl rfl rfl).2 (by decide)⟩

/-! ## Aggregate-JSON mode: lemmas for claim C5 -/

/-- A rotation check that does not trigger leaves the state unchanged. -/
theorem logRotation_not_triggered (st : LoggerState) (f c : String)
    (hf : st.logFile = some f) (hc : listLookup st.files f = some c)
    (hlt : ¬ natGeFloat c.utf8ByteSize st.maxLogSize) :
    logRotation st = Except.ok st := by
  unfold logRotation
  simp only [hf, hc, hlt, if_false]

/-- A triggered rotation check in json format moves to the next counter
and truncates the new active file. -/
theorem logRotation_json_triggered (st : LoggerState) (f c rd t : String)
    (hf : st.logFile = some f) (hc : listLookup st.files f = some c)
    (hrd : st.rootDir = some rd) (ht : st.sessionStartTime = some t)
    (hfmt : st.logSaveFormat = "json")
    (hge : natGeFloat c.utf8ByteSize st.maxLogSize) :
    logRotation st = Except.ok { st with
      logFile := some (joinPath rd (logFileName st.logDirName t st.sessions ("json"))),
      sessions := st.sessions + 1,
      files := mapUpdate st.files
        (joinPath rd (logFileName st.logDirName t st.sessions ("json"))) ("") } := by
  unfold logRotation
  simp only [hf, hc, hrd, ht, hfmt, hge, if_true, String.reduceEq, if_false]

/-- The aggregate accumulation step when the session key holds the list
done: the record is appended to it. -/
theorem appendSession_key (st : LoggerState) (u : String) (done : List LogRecord)
    (r : LogRecord) (hagg : st.formatJsonLogs = true) (huuid : st.sessionUuid = some u)
    (hsl : st.sessionLogs = [(u, done)]) :
    appendSession st r = Except.ok { st with sessionLogs := [(u, done ++ [r])] } := by
  unfold appendSession
  rw [hagg]
  simp only [if_true]
  rw [huuid]
  dsimp only []
  rw [hsl]
  simp [listLookup, mapUpdate]

/-- One writer-loop step in aggregate-json mode: the record joins the
session sequence and the (possibly freshly rotated) active file is
overwritten with the dump of the whole session mapping. -/
theorem writeOneRecord_agg_spec (st : LoggerState) (u : String) (done : List LogRecord)
    (r : LogRecord) (f c rd t : String)
    (hagg : st.formatJsonLogs = true) (hfmt : st.logSaveFormat = "json")
    (huuid : st.sessionUuid = some u) (hsl : st.sessionLogs = [(u, done)])
    (hf : st.logFile = some f) (hrd : st.rootDir = some rd)
    (ht : st.sessionStartTime = some t) (hc : listLookup st.files f = some c) :
    ∃ st2, writeOneRecord st r = Except.ok st2 ∧
      st2.formatJsonLogs = true ∧ st2.logSaveFormat = "json" ∧
      st2.sessionUuid = some u ∧ st2.sessionLogs = [(u, done ++ [r])] ∧
      st2.rootDir = some rd ∧ st2.sessionStartTime = some t ∧
      ∃ f1, st2.logFile = some f1 ∧
        listLookup st2.files f1 =
          some (dumpInd 0 (sessionLogsJson [(u, done ++ [r])])) := by
  by_cases hge : natGeFloat c.utf8ByteSize st.maxLogSize
  · have hrot := logRotation_json_triggered st f c rd t hf hc hrd ht hfmt hge
    have happ := appendSession_key { st with
        logFile := some (joinPath rd (logFileName st.logDirName t st.sessions ("json"))),
        sessions := st.sessions + 1,
        files := mapUpdate st.files
          (joinPath rd (logFileName st.logDirName t st.sessions ("json"))) ("") }
      u done r hagg huuid hsl
    refine ⟨{ st with
        logFile := some (joinPath rd (logFileName st.logDirName t st.sessions ("json"))),
        sessions := st.sessions + 1,
        sessionLogs := [(u, done ++ [r])],
        files := mapUpdate
          (mapUpdate st.files
            (joinPath rd (logFileName st.logDirName t st.sessions ("json"))) (""))
          (joinPath rd (logFileName st.logDirName t st.sessions ("json")))
          (dumpInd 0 (sessionLogsJson [(u, done ++ [r])])) },
      ?_, hagg, hfmt, huuid, rfl, hrd, ht,
      joinPath rd (logFileName st.logDirName t st.sessions ("json")), rfl,
      listLookup_mapUpdate_self _ _ _⟩
    unfold writeOneRecord
    rw [hrot]
    dsimp only []
    rw [happ]
    dsimp only []
    simp only [hfmt, hagg, if_true, and_true, if_pos rfl]
  · have hrot := logRotation_not_triggered st f c hf hc hge
    have happ := appendSession_key st u done r hagg huuid hsl
    refine ⟨{ st with
        sessionLogs := [(u, done ++ [r])],
        files := mapUpdate st.files f (dumpInd 0 (sessionLogsJson [(u, done ++ [r])])) },
      ?_, hagg, hfmt, huuid, rfl, hrd, ht, f, hf, listLookup_mapUpdate_self _ _ _⟩
    unfold writeOneRecord
    rw [hrot]
    dsimp only []
    rw [happ]
    dsimp only []
    simp only [hfmt, hagg, if_true, and_true, if_pos rfl, hf]

/-- Running the writer loop over a list of records in aggregate-json mode:
the session sequence grows by exactly those records in order, and once at
least one record has been processed the active file holds the dump of the
whole session mapping. -/
theorem runWriter_agg (recs : List LogRecord) :
    ∀ (st : LoggerState) (u : String) (done : List LogRecord) (f c : String),
      st.formatJsonLogs = true → st.logSaveFormat = "json" → st.sessionUuid = some u →
      st.sessionLogs = [(u, done)] → st.logFile = some f →
      (∃ rd, st.rootDir = some rd) → (∃ t, st.sessionStartTime = some t) →
      listLookup st.files f = some c →
      ∃ st', runWriter (recs.map some) st = Except.ok st' ∧
        st'.sessionLogs = [(u, done ++ recs)] ∧
        (recs = [] → st' = st) ∧
        (recs ≠ [] → ∃ f1, st'.logFile = some f1 ∧
          listLookup st'.files f1 =
            some (dumpInd 0 (sessionLogsJson [(u, done ++ recs)]))) := by
  induction recs with
  | nil =>
    intro st u done f c hagg hfmt huuid hsl hf _ _ _
    refine ⟨st, rfl, ?_, fun _ => rfl, fun hne => absurd rfl hne⟩
    simpa using hsl
  | cons r rs ih =>
    intro st u done f c hagg hfmt huuid hsl hf hrd ht hc
    obtain ⟨rd, hrd'⟩ := hrd
    obtain ⟨t, ht'⟩ := ht
    obtain ⟨st2, hw, hagg2, hfmt2, huuid2, hsl2, hrd2, ht2, f1, hf1, hc1⟩ :=
      writeOneRecord_agg_spec st u done r f c rd t hagg hfmt huuid hsl hf hrd' ht' hc
    obtain ⟨st', hrun, hsl', hnil', hcons'⟩ :=
      ih st2 u (done ++ [r]) f1 (dumpInd 0 (sessionLogsJson [(u, done ++ [r])]))
        hagg2 hfmt2 huuid2 hsl2 hf1 ⟨rd, hrd2⟩ ⟨t, ht2⟩ hc1
    refine ⟨st', ?_, ?_, ?_, ?_⟩
    · show runWriter (some r :: rs.map some) st = Except.ok st'
      unfold runWriter
      rw [hw]
      exact hrun
    · rw [hsl']
      simp
    · intro hcontra
      exact absurd hcontra (by simp)
    · intro _
      by_cases hrs : rs = []
      · subst hrs
        have hst' : st' = st2 := hnil' rfl
        subst hst'
        exact ⟨f1, hf1, by simpa using hc1⟩
      · obtain ⟨f2, hf2, hc2⟩ := hcons' hrs
        refine ⟨f2, hf2, ?_⟩
        rw [hc2]
        simp

/-- One emit call in aggregate mode when the session key already exists:
only the queue grows, by the record of the call. -/
theorem logEmit_agg_step_key (st : LoggerState) (c : EmitCall) (u : String)
    (l0 : List LogRecord) (hd : st.logDir ≠ none) (hagg : st.formatJsonLogs = true)
    (huuid : st.sessionUuid = some u) (hsl : st.sessionLogs = [(u, l0)])
    (hp : ∃ p, getPriority c.logType = Except.ok p)
    (hq : ∃ q, getPriority st.logPriority = Except.ok q) :
    ∃ out, logEmit st c.logType c.message c.showTimeArg c.explicitLogConsole c.now c.info =
      Except.ok (out, { st with
        queue := st.queue ++ [some (recordOfCall st.showTime c)] }) := by
  obtain ⟨p, hp'⟩ := hp
  obtain ⟨q, hq'⟩ := hq
  unfold logEmit
  rw [if_neg hd]
  dsimp only []
  rw [hp', hq']
  dsimp only []
  have hens : ensureSession { st with
      queue := st.queue ++ [some (currentLogOf
        (effectiveCurrentTime st.showTime c.showTimeArg c.now) c.logType c.info
        c.message)] } = Except.ok { st with
      queue := st.queue ++ [some (currentLogOf
        (effectiveCurrentTime st.showTime c.showTimeArg c.now) c.logType c.info
        c.message)] } := by
    unfold ensureSession
    rw [if_pos hagg]
    dsimp only []
    rw [huuid]
    dsimp only []
    rw [hsl]
    simp [listLookup]
  rw [hens]
  dsimp only []
  split
  · exact ⟨_, rfl⟩
  · split
    · exact ⟨_, rfl⟩
    · split
      · exact ⟨_, rfl⟩
      · exact ⟨_, rfl⟩

/-- One emit call in aggregate mode when the session map is still empty:
the queue grows by the record of the call and the session key is bound to
the empty sequence. -/
theorem logEmit_agg_step_empty (st : LoggerState) (c : EmitCall) (u : String)
    (hd : st.logDir ≠ none) (hagg : st.formatJsonLogs = true)
    (huuid : st.sessionUuid = some u) (hsl : st.sessionLogs = [])
    (hp : ∃ p, getPriority c.logType = Except.ok p)
    (hq : ∃ q, getPriority st.logPriority = Except.ok q) :
    ∃ out, logEmit st c.logType c.message c.showTimeArg c.explicitLogConsole c.now c.info =
      Except.ok (out, { st with
        queue := st.queue ++ [some (recordOfCall st.showTime c)],
        sessionLogs := [(u, [])] }) := by
  obtain ⟨p, hp'⟩ := hp
  obtain ⟨q, hq'⟩ := hq
  unfold logEmit
  rw [if_neg hd]
  dsimp only []
  rw [hp', hq']
  dsimp only []
  have hens : ensureSession { st with
      queue := st.queue ++ [some (currentLogOf
        (effectiveCurrentTime st.showTime c.showTimeArg c.now) c.logType c.info
        c.message)] } = Except.ok { st with
      queue := st.queue ++ [some (currentLogOf
        (effectiveCurrentTime st.showTime c.showTimeArg c.now) c.logType c.info
        c.message)],
      sessionLogs := [(u, [])] } := by
    unfold ensureSession
    rw [if_pos hagg]
    dsimp only []
    rw [huuid]
    dsimp only []
    rw [hsl]
    simp [listLookup]
  rw [hens]
  dsimp only []
  split
  · exact ⟨_, rfl⟩
  · split
    · exact ⟨_, rfl⟩
    · split
      · exact ⟨_, rfl⟩
      · exact ⟨_, rfl⟩

/-- Emitting a sequence of calls in aggregate mode with the session key
present: the queue grows by the records of the calls, in order, and
nothing else changes. -/
theorem runEmits_agg_key (cs : List EmitCall) :
    ∀ (st : LoggerState) (u : String) (l0 : List LogRecord),
      st.logDir ≠ none → st.formatJsonLogs = true → st.sessionUuid = some u →
      st.sessionLogs = [(u, l0)] →
      (∀ c ∈ cs, ∃ p, getPriority c.logType = Except.ok p) →
      (∃ q, getPriority st.logPriority = Except.ok q) →
      runEmits st cs = Except.ok { st with
        queue := st.queue ++ cs.map (fun c => some (recordOfCall st.showTime c)) } := by
  induction cs with
  | nil =>
    intro st u l0 _ _ _ _ _ _
    show Except.ok st = _
    simp
  | cons c cs' ih =>
    intro st u l0 hd hagg huuid hsl hps hq
    obtain ⟨out, hstep⟩ := logEmit_agg_step_key st c u l0 hd hagg huuid hsl
      (hps c (by simp)) hq
    show (match logEmit st c.logType c.message c.showTimeArg c.explicitLogConsole c.now
        c.info with
      | Except.error e => Except.error e
      | Except.ok (_, st1) => runEmits st1 cs') = _
    rw [hstep]
    dsimp only []
    rw [ih { st with queue := st.queue ++ [some (recordOfCall st.showTime c)] } u l0 hd hagg
      huuid hsl (fun c' hc' => hps c' (by simp [hc'])) hq]
    simp

/-! ## Claim C5 -/

/-- Claim C5: in aggregate-JSON mode, after emitting any sequence of
records and draining any prefix of at least one of them, the active file
holds exactly the indent-2 dump of a JSON mapping with the session uuid as
its only key, bound to the array of the records of the drained emits in
emission order.  Since the dump is a faithful rendering of that document,
parsing the file back recovers the one-key session mapping, and because
this holds for every prefix length i, the persisted file is at every point
a complete document reflecting all records written so far. -/
theorem c5_aggregate_full_session_rewrite :
    ∀ (a : InitArgs) (pth now uuidv : String) (st0 : LoggerState) (cs : List EmitCall)
      (i : Nat),
      a.logDirPath = some pth →
      a.formatJsonLog = true →
      pyStrip (pyLower a.logSaveFormat) = "json" →
      (∃ q, getPriority (pyUpper a.logPriority) = Except.ok q) →
      (∀ c ∈ cs, ∃ p, getPriority c.logType = Except.ok p) →
      initLogger a now uuidv = Except.ok st0 →
      1 ≤ i → i ≤ cs.length →
      ∃ stE st' f1,
        runEmits st0 cs = Except.ok stE ∧
        runWriter (stE.queue.take i) stE = Except.ok st' ∧
        st'.logFile = some f1 ∧
        listLookup st'.files f1 =
          some (dumpInd 0 (Json.obj [(uuidv,
            Json.arr ((cs.take i).map (fun c => recToJson (recordOfCall a.showTime c))))])) := by
  intro a pth now uuidv st0 cs i hd hagg hfmt hq hps hinit h1 hi
  unfold initLogger at hinit
  rw [hd] at hinit
  dsimp only [] at hinit
  rw [hfmt, hagg] at hinit
  simp only [String.reduceEq, if_true] at hinit
  injection hinit with hst0
  have hAgg : st0.formatJsonLogs = true := by rw [← hst0]
  have hFmt : st0.logSaveFormat = "json" := by rw [← hst0]
  have hUuid : st0.sessionUuid = some uuidv := by rw [← hst0]
  have hSl : st0.sessionLogs = [] := by rw [← hst0]
  have hDir : st0.logDir ≠ none := by
    rw [← hst0]
    exact fun h => Option.noConfusion h
  have hQueue : st0.queue = [] := by rw [← hst0]
  have hShow : st0.showTime = a.showTime := by rw [← hst0]
  have hRoot : ∃ rd, st0.rootDir = some rd := by
    rw [← hst0]
    exact ⟨_, rfl⟩
  have hTime : ∃ t, st0.sessionStartTime = some t := by
    rw [← hst0]
    exact ⟨_, rfl⟩
  have hFile : st0.logFile = some (joinPath
      (if a.makeNewLogDir = true then joinPath (absPath pth) a.logDirName else absPath pth)
      (logFileName a.logDirName now 1 ("json"))) := by
    rw [← hst0]
  have hLookup : listLookup st0.files (joinPath
      (if a.makeNewLogDir = true then joinPath (absPath pth) a.logDirName else absPath pth)
      (logFileName a.logDirName now 1 ("json"))) = some ("") := by
    rw [← hst0]
    exact listLookup_mapUpdate_self _ _ _
  obtain ⟨q0, hq0⟩ := hq
  have hq' : ∃ q, getPriority st0.logPriority = Except.ok q := by
    refine ⟨q0, ?_⟩
    have hPri : st0.logPriority = pyUpper a.logPriority := by rw [← hst0]
    rw [hPri, hq0]
  clear hst0
  cases cs with
  | nil =>
    exact absurd (Nat.le_trans h1 hi) (by simp)
  | cons c cs' =>
    obtain ⟨out, hstep⟩ := logEmit_agg_step_empty st0 c uuidv hDir hAgg hUuid hSl
      (hps c (by simp)) hq'
    have hrest := runEmits_agg_key cs'
      ({ st0 with
        queue := st0.queue ++ [some (recordOfCall st0.showTime c)],
        sessionLogs := [(uuidv, [])] }) uuidv [] hDir hAgg hUuid rfl
      (fun c' hc' => hps c' (by simp [hc'])) hq'
    obtain ⟨j, rfl⟩ : ∃ j, i = j + 1 := ⟨i - 1, by omega⟩
    obtain ⟨st', hrun, hsl', hnil', hcons'⟩ :=
      runWriter_agg ((c :: cs').take (j + 1) |>.map (recordOfCall st0.showTime))
        ({ st0 with
          queue := (st0.queue ++ [some (recordOfCall st0.showTime c)]) ++
            cs'.map (fun c' => some (recordOfCall st0.showTime c')),
          sessionLogs := [(uuidv, [])] }) uuidv []
        (joinPath
          (if a.makeNewLogDir = true then joinPath (absPath pth) a.logDirName
            else absPath pth)
          (logFileName a.logDirName now 1 ("json"))) ("")
        hAgg hFmt hUuid rfl hFile hRoot hTime hLookup
    have hne : ((c :: cs').take (j + 1) |>.map (recordOfCall st0.showTime)) ≠ [] := by
      simp [List.take]
    obtain ⟨f1, hf1, hc1⟩ := hcons' hne
    refine ⟨{ st0 with
        queue := (st0.queue ++ [some (recordOfCall st0.showTime c)]) ++
          cs'.map (fun c' => some (recordOfCall st0.showTime c')),
        sessionLogs := [(uuidv, [])] }, st', f1, ?_, ?_, hf1, ?_⟩
    · show (match logEmit st0 c.logType c.message c.showTimeArg c.explicitLogConsole c.now
          c.info with
        | Except.error e => Except.error e
        | Except.ok (_, st1) => runEmits st1 cs') = _
      rw [hstep]
      dsimp only []
      rw [hrest]
    · convert hrun using 2
      dsimp only []
      rw [hQueue]
      simp only [List.map_take, List.map_map]
      rfl
    · rw [hc1]
      simp only [List.nil_append, sessionLogsJson, List.map_cons, List.map_nil,
        List.map_map, hShow]
      rfl

/-- Aggregate-json logger configuration. -/
def argsAgg : InitArgs :=
  { colouredLog := false, showTime := false, logPriority := "DEBUG", logSaveFormat := "json",
    logDirPath := some ("/logs"), logDirName := "myLog", flushInterval := ⟨0, 1⟩,
    maxLogSizeMb := ⟨5, 1⟩, showLogInConsole := true, formatJsonLog := true,
    makeNewLogDir := true }

/-- The state the constructor produces for the aggregate-json
configuration. -/
def stAggInit : LoggerState :=
  { logSaveFormat := "json", logDirName := "myLog", makeNewLogDir := true,
    logPriority := "DEBUG", formatJsonLogs := true, colouredLog := false, showTime := false,
    flushInterval := ⟨0, 1⟩, maxLogSize := ⟨5242880, 1⟩, showLogInConsole := true,
    sessionUuid := some ("uu"), sessionLogs := [],
    logDir := some ("/logs"), rootDir := some ("/logs/myLog"),
    sessionStartTime := some ("2026-01-01_00-00-00"), sessions := 2,
    logFile := some ("/logs/myLog/myLog_2026-01-01_00-00-00(1).json"), queue := [],
    files := [("/logs/myLog/myLog_2026-01-01_00-00-00(1).json", "")] }

/-- An INFO emit call with message a. -/
def callInfoA : EmitCall :=
  { logType := "INFO", message := "a", showTimeArg := none, explicitLogConsole := none,
    now := "T", info := frameA }

/-- An ERROR emit call with message b. -/
def callErrB : EmitCall :=
  { logType := "ERROR", message := "b", showTimeArg := none, explicitLogConsole := none,
    now := "T", info := frameA }

/-- Witness for claim C5: two emits on the aggregate configuration and a
drain of both. -/
theorem c5_aggregate_full_session_rewrite_witness :
    ∃ stE st' f1,
      runEmits stAggInit [callInfoA, callErrB] = Except.ok stE ∧
      runWriter (stE.queue.take 2) stE = Except.ok st' ∧
      st'.logFile = some f1 ∧
      listLookup st'.files f1 =
        some (dumpInd 0 (Json.obj [("uu",
          Json.arr (([callInfoA, callErrB].take 2).map
            (fun c => recToJson (recordOfCall argsAgg.showTime c))))])) :=
  c5_aggregate_full_session_rewrite argsAgg ("/logs") ("2026-01-01_00-00-00") ("uu")
    stAggInit [callInfoA, callErrB] 2 rfl rfl rfl ⟨0, rfl⟩
    (by
      intro c hc
      simp only [List.mem_cons, List.not_mem_nil, or_false] at hc
      rcases hc with rfl | rfl
      · exact ⟨1, rfl⟩
      · exact ⟨3, rfl⟩)
    rfl (by decide) (by decide)
